import Mathlib

/-!
Verification of `day1_homework.py`: a shallow embedding of the per-device
pipeline (backup + CDP/IOS/NTP probes over one CLI session), the backup
path derivation, and the orchestrator's result-drain loop.

Python strings are modelled as Lean `String`; the handful of `str` methods
the source uses (`in`, `split`, `strip`, `upper`, `format`) are given
executable models over the underlying character list below, matching
CPython semantics on the inputs involved.

A crucial semantic point carried through the embedding: every
`try ... except Error:` block in the source names `Error`, which is
defined nowhere (not a Python builtin, not imported).  When the `try`
body raises, CPython evaluates the `except` clause's expression to match
the exception; looking up the undefined name `Error` raises `NameError`,
which propagates.  Hence the handler bodies (`print(...); return False`)
are unreachable, and any exception inside a `try` body escapes the
function as `NameError`.
-/

namespace DevNet

/-! ## Python string primitives -/

/-- Model of list/char-sequence leading-match test used by the split and
containment models below. -/
def startsWith : List Char → List Char → Bool
  | [], _ => true
  | _ :: _, [] => false
  | a :: as, b :: bs => a == b && startsWith as bs

/-- Scan for an occurrence of `needle` anywhere in `hay`. -/
def containsAt : List Char → List Char → Bool
  | n, [] => startsWith n []
  | n, c :: rest => startsWith n (c :: rest) || containsAt n rest

/-- Python `needle in hay` for strings (substring test; `"" in s` is true). -/
def pyIn (needle hay : String) : Bool :=
  containsAt needle.data hay.data

/-- Python `s.strip()`: drop leading and trailing whitespace. -/
def pyStrip (s : String) : String :=
  ⟨((s.data.dropWhile Char.isWhitespace).reverse.dropWhile Char.isWhitespace).reverse⟩

/-- Python `s.upper()` (inputs here are ASCII). -/
def pyUpper (s : String) : String :=
  ⟨s.data.map Char.toUpper⟩

/-- Worker for `pySplitOn`: left-to-right, non-overlapping matches of a
non-empty separator; empty pieces are kept, as in Python.  `fuel` bounds
the recursion; it is instantiated with the input length, which suffices
because every step consumes at least one character. -/
def pySplitOnAux (sep : List Char) : Nat → List Char → List Char → List (List Char)
  | _, [], acc => [acc.reverse]
  | 0, _ :: _, acc => [acc.reverse]
  | fuel + 1, c :: rest, acc =>
    if startsWith sep (c :: rest) then
      acc.reverse :: pySplitOnAux sep fuel (rest.drop (sep.length - 1)) []
    else
      pySplitOnAux sep fuel rest (c :: acc)

/-- Python `s.split(sep)` for a non-empty separator (`"".split(sep) = [""]`). -/
def pySplitOn (sep : String) (s : String) : List String :=
  (pySplitOnAux sep.data s.data.length s.data []).map (fun l => ⟨l⟩)

/-- Worker for `pySplitWs`. -/
def pySplitWsAux : List Char → List Char → List (List Char)
  | [], [] => []
  | [], acc => [acc.reverse]
  | c :: rest, acc =>
    if c.isWhitespace then
      if acc.isEmpty then pySplitWsAux rest [] else acc.reverse :: pySplitWsAux rest []
    else
      pySplitWsAux rest (c :: acc)

/-- Python `s.split()` with no argument: split on whitespace runs, dropping
empty pieces (`"".split() = []`). -/
def pySplitWs (s : String) : List String :=
  (pySplitWsAux s.data []).map (fun l => ⟨l⟩)

/-! ## Module constants (source lines 17-21) -/

def BACKUP_DIR_PATH : String := "CONFIGURATIONS"

def NTP_SERVER : String := "192.168.1.1"

/-! ## Session model

The Netmiko connection is consumed through four methods:
`enable()`, `send_command(cmd)`, `send_config_set(line)`, `disconnect()`.
A `SessionBehavior` fixes what the device answers to each invocation;
each embedded function returns its Python result (`Except` error =
exception propagating out) together with the trace of session method
invocations it attempted, in order. -/

/-- One invocation of a session method. -/
inductive SessOp
  | enable
  | command (cmd : String)
  | configSet (line : String)
  | disconnect
deriving DecidableEq, Repr

/-- Exceptions that can escape the embedded functions. -/
inductive PyExc
  | nameError
  | connectError
deriving DecidableEq, Repr

/-- Behaviour of an open session.  `cmdOutput c = none` models
`send_command(c)` raising; `configOk l = false` models
`send_config_set(l)` raising; `enableOk = false` models `enable()`
raising. -/
structure SessionBehavior where
  enableOk : Bool
  cmdOutput : String → Option String
  configOk : String → Bool

/-! ## create_backup (source lines 113-135)

The whole body sits in `try ... except Error`; any exception in the body
escapes as `NameError` (see the header comment), so the `return False`
branch is unreachable.  `writeOk = false` models the `open`/`write` of the
backup file raising an `OSError`. -/

def create_backup (sb : SessionBehavior) (writeOk : Bool) :
    Except PyExc Bool × List SessOp :=
  if sb.enableOk then
    match sb.cmdOutput "show running-config all" with
    | none => (.error .nameError, [.enable, .command "show running-config all"])
    | some _output =>
      if writeOk then
        (.ok true, [.enable, .command "show running-config all"])
      else
        (.error .nameError, [.enable, .command "show running-config all"])
  else
    (.error .nameError, [.enable])

/-! ## check_cdp (source lines 137-160) -/

/-- The neighbour count: lines of the `show cdp entry *` output containing
the exact substring `"Device ID: "`. -/
def cdp_neighbor_count (detail : String) : Nat :=
  ((pySplitOn "\n" detail).filter (fun row => pyIn "Device ID: " row)).length

def check_cdp (sb : SessionBehavior) :
    Except PyExc String × List SessOp :=
  if sb.enableOk then
    match sb.cmdOutput "show cdp" with
    | none => (.error .nameError, [.enable, .command "show cdp"])
    | some output =>
      if pyIn "not enabled" output then
        (.ok "CDP OFF, 0 peers", [.enable, .command "show cdp"])
      else
        match sb.cmdOutput "show cdp entry *" with
        | none =>
          (.error .nameError,
           [.enable, .command "show cdp", .command "show cdp entry *"])
        | some detail =>
          (.ok ("CDP ON, " ++ toString (cdp_neighbor_count detail) ++ " peers"),
           [.enable, .command "show cdp", .command "show cdp entry *"])
  else
    (.error .nameError, [.enable])

/-! ## check_ios (source lines 162-183) -/

/-- The version-line extraction of `check_ios`, in Python evaluation order:
`Type = out.strip().split(', ')[1].split()[0]`, then the payload test on
`out.strip().split(', ')[1].split()[-1].upper()`, then
`IOSVersion = out.strip().split(', ')[2].split()[1]`.  `none` models an
`IndexError` escaping the corresponding subscription. -/
def ios_parse_version (out : String) : Option (String × String × String) := do
  let parts := pySplitOn ", " (pyStrip out)
  let field1 ← parts.get? 1
  let ty ← (pySplitWs field1).get? 0
  let lastTok ← (pySplitWs field1).getLast?
  let payload := if pyIn "NPE" (pyUpper lastTok) then "NPE" else "PE"
  let field2 ← parts.get? 2
  let ver ← (pySplitWs field2).get? 1
  pure (ty, payload, ver)

/-- The model extraction of `check_ios`:
`Model = out.strip().split()[1]` on the memory-line output. -/
def ios_parse_model (out : String) : Option String :=
  (pySplitWs (pyStrip out)).get? 1

def check_ios (sb : SessionBehavior) :
    Except PyExc String × List SessOp :=
  if sb.enableOk then
    match sb.cmdOutput "show version | i Cisco IOS Software" with
    | none =>
      (.error .nameError, [.enable, .command "show version | i Cisco IOS Software"])
    | some output =>
      match ios_parse_version output with
      | none =>
        (.error .nameError, [.enable, .command "show version | i Cisco IOS Software"])
      | some (ty, payload, ver) =>
        match sb.cmdOutput "show version | i of memory." with
        | none =>
          (.error .nameError,
           [.enable, .command "show version | i Cisco IOS Software",
            .command "show version | i of memory."])
        | some memOut =>
          match ios_parse_model memOut with
          | none =>
            (.error .nameError,
             [.enable, .command "show version | i Cisco IOS Software",
              .command "show version | i of memory."])
          | some model =>
            (.ok (ty ++ " " ++ model ++ "|" ++ ver ++ "|" ++ payload),
             [.enable, .command "show version | i Cisco IOS Software",
              .command "show version | i of memory."])
  else
    (.error .nameError, [.enable])

/-! ## check_ntp (source lines 185-211) -/

/-- Tail of `check_ntp`: the `show ntp status` query and the substring
classification, appended to an already-accumulated trace `t`. -/
def check_ntp_status (sb : SessionBehavior) (t : List SessOp) :
    Except PyExc String × List SessOp :=
  match sb.cmdOutput "show ntp status" with
  | none => (.error .nameError, t ++ [.command "show ntp status"])
  | some output =>
    ((if pyIn "Clock is synchronized" (pyStrip output) then
        Except.ok "NTP in Sync"
      else
        Except.ok "NTP not Sync"),
     t ++ [.command "show ntp status"])

def check_ntp (sb : SessionBehavior) :
    Except PyExc String × List SessOp :=
  if sb.enableOk then
    if sb.configOk "clock timezone GMT 0 0" then
      match sb.cmdOutput ("ping " ++ NTP_SERVER) with
      | none =>
        (.error .nameError,
         [.enable, .configSet "clock timezone GMT 0 0",
          .command ("ping " ++ NTP_SERVER)])
      | some ping_ntp =>
        if pyIn "!" (pyStrip ping_ntp) then
          if sb.configOk ("ntp server " ++ NTP_SERVER) then
            check_ntp_status sb
              [.enable, .configSet "clock timezone GMT 0 0",
               .command ("ping " ++ NTP_SERVER),
               .configSet ("ntp server " ++ NTP_SERVER)]
          else
            (.error .nameError,
             [.enable, .configSet "clock timezone GMT 0 0",
              .command ("ping " ++ NTP_SERVER),
              .configSet ("ntp server " ++ NTP_SERVER)])
        else
          check_ntp_status sb
            [.enable, .configSet "clock timezone GMT 0 0",
             .command ("ping " ++ NTP_SERVER)]
    else
      (.error .nameError, [.enable, .configSet "clock timezone GMT 0 0"])
  else
    (.error .nameError, [.enable])

/-! ## get_backup_file_path (source lines 92-111)

The filesystem is modelled as the list of existing paths; `os.path.exists`
is membership, the guarded `os.mkdir` appends.  `os.path.join(a, b)` on
POSIX with a relative `b` is `a ++ "/" ++ b`. -/

/-- Python `b.startswith('/')`: the component is absolute. -/
def isAbs (s : String) : Bool := startsWith ['/'] s.data

/-- Python `a.endswith('/')`. -/
def endsWithSep (s : String) : Bool := s.data.getLast? == some '/'

/-- CPython `posixpath.join` of two components: an absolute `b` discards
`a`; an empty or separator-terminated `a` gets `b` appended with no
separator; otherwise a `'/'` is inserted. -/
def pathJoin (a b : String) : String :=
  if isAbs b then b
  else if a.data.isEmpty || endsWithSep a then a ++ b
  else a ++ "/" ++ b

/-- One `if not os.path.exists(p): os.mkdir(p)` block of the source. -/
def ensure_dir (fs : List String) (p : String) : List String :=
  if p ∈ fs then fs else fs ++ [p]

/-- Returns the filesystem after the two guarded `mkdir` calls (first the
backup root, then the per-device directory), together with the backup file
path `os.path.join(BACKUP_DIR_PATH, hostname, '\x7b\x7d-\x7b\x7d.txt'.format(hostname, timestamp))`. -/
def get_backup_file_path (fs : List String) (hostname timestamp : String) :
    List String × String :=
  (ensure_dir (ensure_dir fs BACKUP_DIR_PATH) (pathJoin BACKUP_DIR_PATH hostname),
   pathJoin (pathJoin BACKUP_DIR_PATH hostname) (hostname ++ "-" ++ timestamp ++ ".txt"))

/-! ## process_target (source lines 214-237)

Per-device behaviour: `connectOk = false` models `ConnectHandler` raising.
`process_target` has no `try` of its own, so any exception escaping a step
escapes the task.  On full success the task prints
`hostname + "|" + IOS + "|" + CDP + "|" + NTP`, modelled as the `.ok`
payload, and the trace ends with the `disconnect` invocation. -/

structure DeviceBehavior where
  connectOk : Bool
  session : SessionBehavior
  writeOk : Bool

def process_target (db : DeviceBehavior) (hostname : String) :
    Except PyExc String × List SessOp :=
  if db.connectOk then
    match create_backup db.session db.writeOk with
    | (.error e, t1) => (.error e, t1)
    | (.ok _, t1) =>
      match check_cdp db.session with
      | (.error e, t2) => (.error e, t1 ++ t2)
      | (.ok cdp, t2) =>
        match check_ios db.session with
        | (.error e, t3) => (.error e, t1 ++ t2 ++ t3)
        | (.ok ios, t3) =>
          match check_ntp db.session with
          | (.error e, t4) => (.error e, t1 ++ t2 ++ t3 ++ t4)
          | (.ok ntp, t4) =>
            (.ok (hostname ++ "|" ++ ios ++ "|" ++ cdp ++ "|" ++ ntp),
             t1 ++ t2 ++ t3 ++ t4 ++ [.disconnect])
  else
    (.error .connectError, [])

/-! ## main's result drain (source lines 256-262)

`pool.apply_async` stores either the task's return value or the exception
it raised; `AsyncResult.get()` waits for the task and re-raises a stored
exception.  `main` calls `get()` on the submitted tasks in order, so the
first stored exception aborts the drain loop. -/

/-- What `AsyncResult.get()` will deliver for one task. -/
def task_result (db : DeviceBehavior) (hostname : String) : Except PyExc Unit :=
  match (process_target db hostname).1 with
  | .ok _ => .ok ()
  | .error e => .error e

/-- The drain loop: returns how many tasks `get()` was called on, and the
first re-raised exception (if any), which escapes `main`. -/
def main_drain : List (Except PyExc Unit) → Nat × Option PyExc
  | [] => (0, none)
  | .error e :: _ => (1, some e)
  | .ok _ :: rest =>
    ((main_drain rest).1 + 1, (main_drain rest).2)

/-- `main` over a device list: one task per device, then the drain loop. -/
def main_results (devices : List (DeviceBehavior × String)) : Nat × Option PyExc :=
  main_drain (devices.map (fun d => task_result d.1 d.2))

/-! ## Concrete device behaviours used in the evaluations below -/

/-- The two `show version` outputs from the specification's worked example. -/
def iosVerLine : String :=
  "Cisco IOS Software, C2900 Software (C2900-UNIVERSALK9-M), Version 15.1(4)M4, RELEASE SOFTWARE"

def iosMemLine : String := "cisco 2901 with ... of memory."

/-- A fully healthy session: every command answers, the two version
commands answer with the worked-example lines. -/
def sbGood : SessionBehavior where
  enableOk := true
  cmdOutput := fun c =>
    if c = "show version | i Cisco IOS Software" then some iosVerLine
    else if c = "show version | i of memory." then some iosMemLine
    else some "out"
  configOk := fun _ => true

def dbGood : DeviceBehavior where
  connectOk := true
  session := sbGood
  writeOk := true

/-- A session whose `show running-config all` command raises. -/
def sbBackupFail : SessionBehavior where
  enableOk := true
  cmdOutput := fun c =>
    if c = "show running-config all" then none
    else if c = "show version | i Cisco IOS Software" then some iosVerLine
    else if c = "show version | i of memory." then some iosMemLine
    else some "out"
  configOk := fun _ => true

def dbBackupFail : DeviceBehavior where
  connectOk := true
  session := sbBackupFail
  writeOk := true

/-- A session whose `show cdp` command raises; everything else answers. -/
def sbCdpFail : SessionBehavior where
  enableOk := true
  cmdOutput := fun c =>
    if c = "show cdp" then none
    else if c = "show version | i Cisco IOS Software" then some iosVerLine
    else if c = "show version | i of memory." then some iosMemLine
    else some "out"
  configOk := fun _ => true

def dbCdpFail : DeviceBehavior where
  connectOk := true
  session := sbCdpFail
  writeOk := true

/-- A session where CDP is reported disabled. -/
def sbCdpOff : SessionBehavior where
  enableOk := true
  cmdOutput := fun c =>
    if c = "show cdp" then some "% CDP is not enabled" else some "out"
  configOk := fun _ => true

/-- A session with CDP on and three neighbours in the detail output. -/
def sbCdpOn : SessionBehavior where
  enableOk := true
  cmdOutput := fun c =>
    if c = "show cdp" then some "Global CDP information:"
    else if c = "show cdp entry *" then
      some "Device ID: R2\nIP address: 10.0.0.2\nDevice ID: R3\nIP address: 10.0.0.3\nDevice ID: R4"
    else some "out"
  configOk := fun _ => true

/-- A session where the NTP server answers the ping and the clock is
synchronized. -/
def sbNtpDemo : SessionBehavior where
  enableOk := true
  cmdOutput := fun c =>
    if c = "ping 192.168.1.1" then some "!!!!!"
    else if c = "show ntp status" then some "Clock is synchronized, stratum 2"
    else some "out"
  configOk := fun _ => true

/-! ## Helper lemmas -/

theorem ensure_dir_mem_iff (fs : List String) (p q : String) :
    q ∈ ensure_dir fs p ↔ q ∈ fs ∨ q = p := by
  unfold ensure_dir
  split
  · constructor
    · exact fun hq => Or.inl hq
    · rintro (hq | rfl)
      · exact hq
      · assumption
  · simp [List.mem_append]

theorem ensure_dir_no_op (fs : List String) (p : String) (hp : p ∈ fs) :
    ensure_dir fs p = fs := by
  simp [ensure_dir, hp]

theorem strDataAppend (x y : String) : (x ++ y).data = x.data ++ y.data := rfl

theorem isEmpty_append_cons (xs : List Char) (c : Char) (l : List Char) :
    (xs ++ c :: l).isEmpty = false := by
  cases xs <;> simp [List.isEmpty]

/-! ## Claims -/

/-- C1: the claimed contract — a Device Task whose session open succeeds
never raises out of its own scope, proceeds through all steps, and always
attempts to close the session — is violated by the code.  With a session
where `show cdp` raises, `process_target` raises `NameError` (the
`except Error` handler names an undefined identifier), the IOS and NTP
probes never run, and `disconnect` is never invoked. -/
theorem c1_task_raises_and_skips_close :
    process_target dbCdpFail "R1" =
      (Except.error PyExc.nameError,
       [SessOp.enable, SessOp.command "show running-config all",
        SessOp.enable, SessOp.command "show cdp"])
    ∧ SessOp.disconnect ∉ (process_target dbCdpFail "R1").2
    ∧ SessOp.command "show version | i Cisco IOS Software" ∉
        (process_target dbCdpFail "R1").2 := by
  refine ⟨rfl, ?_, ?_⟩ <;> decide

/-- C2: the claim that a failure inside the backup step is caught locally
by `create_backup` (returning `False`) and does not abort the remaining
checks is violated: when `show running-config all` raises,
`create_backup` propagates `NameError` instead of returning `false`, and
none of the CDP, IOS or NTP probe commands are ever issued by the task. -/
theorem c2_backup_failure_not_caught :
    create_backup sbBackupFail true =
      (Except.error PyExc.nameError,
       [SessOp.enable, SessOp.command "show running-config all"])
    ∧ SessOp.command "show cdp" ∉ (process_target dbBackupFail "R1").2
    ∧ SessOp.command "show version | i Cisco IOS Software" ∉
        (process_target dbBackupFail "R1").2
    ∧ SessOp.command ("ping " ++ NTP_SERVER) ∉ (process_target dbBackupFail "R1").2 := by
  refine ⟨rfl, ?_, ?_, ?_⟩ <;> decide

/-- C3 counterexample: for a device whose CDP probe fails, no result line
is emitted at all — the task raises instead — so the claim that the line
is always emitted with a failure marker string in the failed field is
false. -/
theorem c3_no_line_on_probe_failure :
    (process_target dbCdpFail "R1").1 = Except.error PyExc.nameError := rfl

/-- C3 (amended): when the connection opens and every step succeeds, the
emitted result line is exactly
`hostname ++ "|" ++ iosInfo ++ "|" ++ cdpStatus ++ "|" ++ ntpStatus`
with the three probe result strings; when a probe fails no line is
emitted, because the failure propagates out of the task. -/
theorem c3_result_line_shape (db : DeviceBehavior) (hostname : String)
    (b : Bool) (cdp ios ntp : String) (t1 t2 t3 t4 : List SessOp)
    (hconn : db.connectOk = true)
    (hb : create_backup db.session db.writeOk = (.ok b, t1))
    (hc : check_cdp db.session = (.ok cdp, t2))
    (hi : check_ios db.session = (.ok ios, t3))
    (hn : check_ntp db.session = (.ok ntp, t4)) :
    process_target db hostname =
      (.ok (hostname ++ "|" ++ ios ++ "|" ++ cdp ++ "|" ++ ntp),
       t1 ++ t2 ++ t3 ++ t4 ++ [SessOp.disconnect]) := by
  simp [process_target, hconn, hb, hc, hi, hn]

/-- C3 witness: the amended statement at the fully healthy device. -/
theorem c3_result_line_shape_witness :
    process_target dbGood "R2" =
      (Except.ok "R2|C2900 2901|15.1(4)M4|PE|CDP ON, 0 peers|NTP not Sync",
       [SessOp.enable, SessOp.command "show running-config all",
        SessOp.enable, SessOp.command "show cdp", SessOp.command "show cdp entry *",
        SessOp.enable, SessOp.command "show version | i Cisco IOS Software",
        SessOp.command "show version | i of memory.",
        SessOp.enable, SessOp.configSet "clock timezone GMT 0 0",
        SessOp.command "ping 192.168.1.1", SessOp.command "show ntp status",
        SessOp.disconnect]) := by
  exact c3_result_line_shape dbGood "R2" true
    "CDP ON, 0 peers" "C2900 2901|15.1(4)M4|PE" "NTP not Sync"
    [.enable, .command "show running-config all"]
    [.enable, .command "show cdp", .command "show cdp entry *"]
    [.enable, .command "show version | i Cisco IOS Software",
     .command "show version | i of memory."]
    [.enable, .configSet "clock timezone GMT 0 0",
     .command "ping 192.168.1.1", .command "show ntp status"]
    rfl rfl rfl rfl rfl

/-- C4: if the `show cdp` output contains `"not enabled"`, the probe
returns `"CDP OFF, 0 peers"` and the detail command is not run (the trace
stops at `show cdp`); otherwise it returns `"CDP ON, n peers"` where `n`
is the number of lines of the `show cdp entry *` output containing the
substring `"Device ID: "`. -/
theorem c4_check_cdp_spec (sb : SessionBehavior) (s d : String)
    (he : sb.enableOk = true)
    (hs : sb.cmdOutput "show cdp" = some s)
    (hd : sb.cmdOutput "show cdp entry *" = some d) :
    (pyIn "not enabled" s = true →
      check_cdp sb = (.ok "CDP OFF, 0 peers", [.enable, .command "show cdp"]))
    ∧ (pyIn "not enabled" s = false →
      check_cdp sb =
        (.ok ("CDP ON, " ++
            toString (((pySplitOn "\n" d).filter (fun row => pyIn "Device ID: " row)).length)
            ++ " peers"),
         [.enable, .command "show cdp", .command "show cdp entry *"])) := by
  constructor <;> intro hne <;>
    simp [check_cdp, he, hs, hd, hne, cdp_neighbor_count]

/-- C4 witness: three `Device ID: ` lines among other text give
`"CDP ON, 3 peers"`. -/
theorem c4_check_cdp_spec_witness :
    check_cdp sbCdpOn =
      (Except.ok "CDP ON, 3 peers",
       [SessOp.enable, SessOp.command "show cdp", SessOp.command "show cdp entry *"]) := by
  exact (c4_check_cdp_spec sbCdpOn "Global CDP information:"
    "Device ID: R2\nIP address: 10.0.0.2\nDevice ID: R3\nIP address: 10.0.0.3\nDevice ID: R4"
    rfl rfl rfl).2 rfl

/-- C5: on the worked-example `show version` outputs, the software-identity
probe returns `"C2900 2901|15.1(4)M4|PE"` (the trailing token of the
second `", "`-field, `"(C2900-UNIVERSALK9-M)"`, uppercases to a string
without `"NPE"`, so the payload is `"PE"`). -/
theorem c5_check_ios_example :
    (check_ios sbGood).1 = Except.ok "C2900 2901|15.1(4)M4|PE" := rfl

/-- C6: the NTP probe pushes the timezone line first (directly after
privilege elevation, before any other command), pushes the NTP-server
line before the final status query exactly when the ping output contains
`"!"`, and returns `"NTP in Sync"` exactly when the (stripped)
`show ntp status` output contains `"Clock is synchronized"`, else
`"NTP not Sync"`. -/
theorem c6_check_ntp_spec (sb : SessionBehavior) (p st : String)
    (he : sb.enableOk = true)
    (htz : sb.configOk "clock timezone GMT 0 0" = true)
    (hsrv : sb.configOk ("ntp server " ++ NTP_SERVER) = true)
    (hp : sb.cmdOutput ("ping " ++ NTP_SERVER) = some p)
    (hst : sb.cmdOutput "show ntp status" = some st) :
    check_ntp sb =
      ((if pyIn "Clock is synchronized" (pyStrip st) then Except.ok "NTP in Sync"
        else Except.ok "NTP not Sync"),
       [SessOp.enable, SessOp.configSet "clock timezone GMT 0 0",
        SessOp.command ("ping " ++ NTP_SERVER)]
       ++ (if pyIn "!" (pyStrip p) then
             [SessOp.configSet ("ntp server " ++ NTP_SERVER)]
           else [])
       ++ [SessOp.command "show ntp status"]) := by
  cases hping : pyIn "!" (pyStrip p) <;>
    simp [check_ntp, check_ntp_status, he, htz, hsrv, hp, hst, hping]

/-- C6 witness: a ping answered with `"!!!!!"` and a synchronized clock
give the config push and `"NTP in Sync"`. -/
theorem c6_check_ntp_spec_witness :
    check_ntp sbNtpDemo =
      (Except.ok "NTP in Sync",
       [SessOp.enable, SessOp.configSet "clock timezone GMT 0 0",
        SessOp.command "ping 192.168.1.1",
        SessOp.configSet "ntp server 192.168.1.1",
        SessOp.command "show ntp status"]) := by
  exact c6_check_ntp_spec sbNtpDemo "!!!!!" "Clock is synchronized, stratum 2"
    rfl rfl rfl rfl rfl

/-- C7 counterexample: the claimed path shape and directory confinement
are false for every hostname only because of `os.path.join`'s
absolute-component rule.  For hostname `"/evil"` the device directory
created is `"/evil"` (outside the backup root) and the returned path is
the absolute `"/evil-20261012.txt"`, not
`CONFIGURATIONS//evil//evil-20261012.txt`; an empty or `/`-terminated
hostname also breaks the claimed `<root>/<hn>/<hn>-<ts>.txt`
concatenation, because `join` then inserts no separator. -/
theorem c7_absolute_hostname_escapes_root :
    (get_backup_file_path [] "/evil" "20261012").2 = "/evil-20261012.txt"
    ∧ (get_backup_file_path [] "/evil" "20261012").2 ≠
        "CONFIGURATIONS" ++ "/" ++ "/evil" ++ "/" ++ ("/evil" ++ "-" ++ "20261012" ++ ".txt")
    ∧ (get_backup_file_path [] "/evil" "20261012").1 = ["CONFIGURATIONS", "/evil"]
    ∧ (get_backup_file_path [] "" "20261012").2 = "CONFIGURATIONS/-20261012.txt"
    ∧ (get_backup_file_path [] "" "20261012").2 ≠
        "CONFIGURATIONS" ++ "/" ++ "" ++ "/" ++ ("" ++ "-" ++ "20261012" ++ ".txt")
    ∧ (get_backup_file_path [] "evil/" "20261012").2 ≠
        "CONFIGURATIONS" ++ "/" ++ "evil/" ++ "/" ++ ("evil/" ++ "-" ++ "20261012" ++ ".txt") := by
  refine ⟨rfl, ?_, rfl, rfl, ?_, ?_⟩ <;> decide

/-- C7 (amended): for every timestamp and every hostname that is
non-empty and neither begins nor ends with `/`, the backup path is the
deterministic `CONFIGURATIONS/<hostname>/<hostname>-<timestamp>.txt`,
independent of the existing filesystem; the call leaves both expected
directories existing, creates nothing beyond those two, and a repeated
call changes nothing and returns the same path (an already-existing
directory is skipped, never an error).  For hostnames outside this set,
`os.path.join`'s component rules break the shape, as the counterexample
shows. -/
theorem c7_backup_path_spec (fs : List String) (hn ts : String)
    (hne : hn.data ≠ [])
    (habs : isAbs hn = false)
    (hsep : endsWithSep hn = false) :
    (get_backup_file_path fs hn ts).2 =
      "CONFIGURATIONS" ++ "/" ++ hn ++ "/" ++ (hn ++ "-" ++ ts ++ ".txt")
    ∧ "CONFIGURATIONS" ∈ (get_backup_file_path fs hn ts).1
    ∧ "CONFIGURATIONS" ++ "/" ++ hn ∈ (get_backup_file_path fs hn ts).1
    ∧ (∀ p ∈ (get_backup_file_path fs hn ts).1,
        p ∈ fs ∨ p = "CONFIGURATIONS" ∨ p = "CONFIGURATIONS" ++ "/" ++ hn)
    ∧ get_backup_file_path (get_backup_file_path fs hn ts).1 hn ts =
        get_backup_file_path fs hn ts := by
  obtain ⟨c, l, hcl⟩ := List.exists_cons_of_ne_nil hne
  have hc : ('/' == c) = false := by
    have h0 := habs
    simp only [isAbs, hcl] at h0
    simpa [startsWith] using h0
  have hd1 : pathJoin BACKUP_DIR_PATH hn = "CONFIGURATIONS" ++ "/" ++ hn := by
    have hB : (BACKUP_DIR_PATH.data.isEmpty || endsWithSep BACKUP_DIR_PATH)
        = false := by decide
    unfold pathJoin
    rw [habs, hB]
    rfl
  have habs2 : isAbs (hn ++ "-" ++ ts ++ ".txt") = false := by
    simp only [isAbs, strDataAppend, hcl, List.cons_append, startsWith,
      Bool.and_true, hc]
  have hcond2 : ((("CONFIGURATIONS" ++ "/" ++ hn).data.isEmpty
      || endsWithSep ("CONFIGURATIONS" ++ "/" ++ hn))) = false := by
    have e1 : ("CONFIGURATIONS" ++ "/" ++ hn).data =
        ("CONFIGURATIONS" ++ "/").data ++ (c :: l) := by
      rw [strDataAppend, hcl]
    have hEmp : ("CONFIGURATIONS" ++ "/" ++ hn).data.isEmpty = false := by
      rw [e1]; exact isEmpty_append_cons _ _ _
    have hLast : endsWithSep ("CONFIGURATIONS" ++ "/" ++ hn) = false := by
      have h1 := hsep
      simp only [endsWithSep, hcl] at h1
      simp only [endsWithSep, e1, List.getLast?_append_cons]
      exact h1
    rw [hEmp, hLast]
    rfl
  have hd2 : pathJoin ("CONFIGURATIONS" ++ "/" ++ hn) (hn ++ "-" ++ ts ++ ".txt")
      = "CONFIGURATIONS" ++ "/" ++ hn ++ "/" ++ (hn ++ "-" ++ ts ++ ".txt") := by
    unfold pathJoin
    rw [habs2, hcond2]
    rfl
  have hroot : BACKUP_DIR_PATH ∈ (get_backup_file_path fs hn ts).1 :=
    (ensure_dir_mem_iff _ _ _).2
      (Or.inl ((ensure_dir_mem_iff _ _ _).2 (Or.inr rfl)))
  have hdev : pathJoin BACKUP_DIR_PATH hn ∈ (get_backup_file_path fs hn ts).1 :=
    (ensure_dir_mem_iff _ _ _).2 (Or.inr rfl)
  refine ⟨?_, hroot, ?_, ?_, ?_⟩
  · show pathJoin (pathJoin BACKUP_DIR_PATH hn) (hn ++ "-" ++ ts ++ ".txt") =
      "CONFIGURATIONS" ++ "/" ++ hn ++ "/" ++ (hn ++ "-" ++ ts ++ ".txt")
    rw [hd1, hd2]
  · have h2 := hdev
    rw [hd1] at h2
    exact h2
  · intro p hp
    have hp2 : p ∈ ensure_dir (ensure_dir fs BACKUP_DIR_PATH) (pathJoin BACKUP_DIR_PATH hn) :=
      hp
    rw [hd1] at hp2
    rcases (ensure_dir_mem_iff _ _ _).1 hp2 with hp1 | hp1
    · rcases (ensure_dir_mem_iff _ _ _).1 hp1 with hp3 | hp3
      · exact Or.inl hp3
      · exact Or.inr (Or.inl hp3)
    · exact Or.inr (Or.inr hp1)
  · show (ensure_dir
        (ensure_dir (get_backup_file_path fs hn ts).1 BACKUP_DIR_PATH)
        (pathJoin BACKUP_DIR_PATH hn),
      pathJoin (pathJoin BACKUP_DIR_PATH hn) (hn ++ "-" ++ ts ++ ".txt")) =
      get_backup_file_path fs hn ts
    rw [ensure_dir_no_op _ _ hroot, ensure_dir_no_op _ _ hdev]
    exact rfl

/-- C7 witness: the amended statement at hostname `"R1"`, timestamp
`"20261012"`, on an empty filesystem. -/
theorem c7_backup_path_spec_witness :
    (get_backup_file_path [] "R1" "20261012").2 =
      "CONFIGURATIONS" ++ "/" ++ "R1" ++ "/" ++ ("R1" ++ "-" ++ "20261012" ++ ".txt")
    ∧ get_backup_file_path (get_backup_file_path [] "R1" "20261012").1 "R1" "20261012" =
        get_backup_file_path [] "R1" "20261012" :=
  ⟨(c7_backup_path_spec [] "R1" "20261012" (by decide) rfl rfl).1,
   (c7_backup_path_spec [] "R1" "20261012" (by decide) rfl rfl).2.2.2.2⟩

/-- C8: the claim that `main` waits on every submitted task and never
observes an exception is violated: with two devices where the first
device's backup command raises, the first `AsyncResult.get()` re-raises
the task's `NameError`, so `main` observes an exception after waiting on
only one of the two tasks. -/
theorem c8_drain_aborts_on_task_exception :
    main_results [(dbBackupFail, "R1"), (dbGood, "R2")] =
      (1, some PyExc.nameError) := rfl

/-- C10: each session-using operation — the backup writer and the CDP,
IOS and NTP probes — invokes `connection.enable()` as its very first
session method, before issuing any command, for every session behaviour
(so each operation runs elevated even in isolation on a fresh session). -/
theorem c10_enable_first (sb : SessionBehavior) (w : Bool) :
    ((create_backup sb w).2.head? = some SessOp.enable)
    ∧ ((check_cdp sb).2.head? = some SessOp.enable)
    ∧ ((check_ios sb).2.head? = some SessOp.enable)
    ∧ ((check_ntp sb).2.head? = some SessOp.enable) := by
  refine ⟨?_, ?_, ?_, ?_⟩ <;>
    · simp only [create_backup, check_cdp, check_ios, check_ntp, check_ntp_status]
      repeat first
        | rfl
        | split

end DevNet
